import Mathlib

/-
Verification of the CloudWatch batched-log-shipping component of
`shared_lib` (`shared_lib/aws/logs.py`, class `CloudwatchLogs`).

The Python class is embedded shallowly: its mutable attributes become an
explicit `EngineState`, the remote AWS client becomes oracles supplied as
function arguments (`put : Nat → Except String Response` gives the outcome of
the put_log_events call of each attempt, `refresh : Nat → Option String` gives
the `uploadSequenceToken` visible to `describe_log_streams` at each refresh),
and every observable side effect (requests made, sleeps, refresh calls) is
recorded in a `Trace`.  A Python function that can raise returns `PyResult`;
`PyResult.ok none` is Python's implicit `return None`.

Remote responses are modelled as well-formed records: a response whose shape
would make `__request_is_valid` itself raise (e.g. missing `ResponseMetadata`)
is represented by the oracle returning `Except.error`, since the `try` block
catches that exception exactly like a failed call.  `describe_log_streams` is
modelled as always returning a well-formed stream list (its own failure modes
are outside every claim considered here).
-/

namespace SharedLib

/-- One CloudWatch log event as built by `CloudwatchLogs.__append_log_events`:
a millisecond timestamp and a decorated message string. -/
structure LogEvent where
  timestamp : Int
  message : String
deriving Repr, DecidableEq

/-- The part of a `put_log_events` response inspected by the code:
`response["ResponseMetadata"]["HTTPStatusCode"]` and the optional
`nextSequenceToken` field. -/
structure Response where
  httpStatus : Nat
  nextSequenceToken : Option String
deriving Repr, DecidableEq

/-- Constructor configuration of `CloudwatchLogs` (fixed for the lifetime of an
instance). -/
structure Config where
  logGroupName : String
  logStreamName : String
  logLevel : String
  useBatches : Bool
  batchSize : Nat
  maxAttempts : Nat
  backoffMultiplier : Nat
deriving Repr

/-- Mutable state of a `CloudwatchLogs` instance:
`batchedMessages` is `self.__batched_messages`, `sequenceToken` is
`self.__sequence_token` (Python `None` is `none`), `logEvents` is
`self.__base_event_log["logEvents"]`, and `storedTokenField` is the
`"sequenceToken"` key of the `self.__base_event_log` dict (absent initially;
once `dict.update` adds it, it persists). -/
structure EngineState where
  batchedMessages : Nat
  sequenceToken : Option String
  logEvents : List LogEvent
  storedTokenField : Option String
deriving Repr, DecidableEq

/-- State right after `__init__` and `__create_base_event_log`. -/
def initState : EngineState := ⟨0, none, [], none⟩

/-- Result of running a Python method: a normal return or a propagated
exception (carrying its message). -/
inductive PyResult (α : Type) where
  | ok : α → PyResult α
  | raised : String → PyResult α
deriving Repr, DecidableEq

/-- Python truthiness of `self.__sequence_token` (`None` and the empty string
are falsy). -/
def pyTruthy : Option String → Bool
  | none => false
  | some s => s != ""

/-- The keyword arguments passed to `put_log_events`, i.e. the contents of
`self.__base_event_log` at call time; `sequenceToken = none` means the field
is absent from the request. -/
structure PutRequest where
  logGroupName : String
  logStreamName : String
  logEvents : List LogEvent
  sequenceToken : Option String
deriving Repr, DecidableEq

/-- Request construction of `__send_log`: when the held token is truthy the
dict is updated with it, then the dict is passed to `put_log_events`.  Returns
the request together with the state whose dict field reflects the update. -/
def sendLogRequest (cfg : Config) (s : EngineState) : PutRequest × EngineState :=
  let stored := if pyTruthy s.sequenceToken then s.sequenceToken else s.storedTokenField
  (⟨cfg.logGroupName, cfg.logStreamName, s.logEvents, stored⟩,
   { s with storedTokenField := stored })

/-- `__request_is_valid`: HTTP status 200 and presence of the
`nextSequenceToken` key. -/
def requestIsValid (r : Response) : Bool :=
  if r.httpStatus = 200 ∧ r.nextSequenceToken.isSome then true else false

/-- Observable side effects of one `__send_log_with_retry` run: the
`put_log_events` requests made in order, the `time.sleep` durations, and the
number of `describe_log_streams` refresh calls. -/
structure Trace where
  puts : List PutRequest
  sleeps : List Nat
  refreshes : Nat
deriving Repr, DecidableEq

/-- `__refresh_sequence_token`: adopt the stream's `uploadSequenceToken` when
present, otherwise leave the held token unchanged. -/
def refreshSequenceToken (tok : Option String) (s : EngineState) : EngineState :=
  match tok with
  | some t => { s with sequenceToken := some t }
  | none => s

/-- The while-loop of `__send_log_with_retry`.  `attempt` is the Python loop
counter at the top of an iteration; `fuel` is the number of iterations still
possible.  The caller passes `fuel = maxAttempts + 1`, which is exact: the
loop body runs only while `attempt ≤ maxAttempts` and increments `attempt`
each time, so `attempt + fuel = maxAttempts + 1` holds throughout and the two
exit branches (fuel exhausted / loop condition false) coincide with the
source's single loop exit, which falls off the function returning `None`. -/
def sendLogRetryGo (cfg : Config) (put : Nat → Except String Response)
    (refresh : Nat → Option String) :
    Nat → Nat → EngineState → PyResult (Option Response) × EngineState × Trace
  | 0, _, s => (PyResult.ok none, s, ⟨[], [], 0⟩)
  | fuel + 1, attempt, s =>
    if attempt ≤ cfg.maxAttempts then
      let req := (sendLogRequest cfg s).1
      let s1 := (sendLogRequest cfg s).2
      match put (attempt + 1) with
      | Except.ok response =>
        if requestIsValid response then
          (PyResult.ok (some response),
           { s1 with sequenceToken := response.nextSequenceToken },
           ⟨[req], [], 0⟩)
        else
          let k := sendLogRetryGo cfg put refresh fuel (attempt + 1) s1
          (k.1, k.2.1, ⟨req :: k.2.2.puts, k.2.2.sleeps, k.2.2.refreshes⟩)
      | Except.error exc =>
        if attempt + 1 > cfg.maxAttempts then
          (PyResult.raised ("Max attempts reached - " ++ exc), s1, ⟨[req], [], 0⟩)
        else
          let s2 := refreshSequenceToken (refresh (attempt + 1)) s1
          let k := sendLogRetryGo cfg put refresh fuel (attempt + 1) s2
          (k.1, k.2.1,
           ⟨req :: k.2.2.puts, ((attempt + 1) * cfg.backoffMultiplier) :: k.2.2.sleeps,
            k.2.2.refreshes + 1⟩)
    else (PyResult.ok none, s, ⟨[], [], 0⟩)

/-- `__send_log_with_retry`, entered with `attempt = 0`. -/
def sendLogWithRetry (cfg : Config) (put : Nat → Except String Response)
    (refresh : Nat → Option String) (s : EngineState) :
    PyResult (Option Response) × EngineState × Trace :=
  sendLogRetryGo cfg put refresh (cfg.maxAttempts + 1) 0 s

/-- `__append_log_events`: append one event, decorating the message with the
host IPv4 address and process id exactly as the f-string does.  The timestamp,
address and pid come from the environment and are passed in. -/
def appendLogEvents (ts : Int) (ipAddress : String) (pid : Nat) (message : String)
    (s : EngineState) : EngineState :=
  { s with logEvents :=
      s.logEvents ++ [⟨ts, ipAddress ++ " - PID:" ++ toString pid ++ " - " ++ message⟩] }

/-- The state after the first two statements of `_handler`'s batching branch:
the event appended and the counter incremented. -/
def batchBoundaryState (ts : Int) (ipAddress : String) (pid : Nat) (message : String)
    (s : EngineState) : EngineState :=
  let s1 := appendLogEvents ts ipAddress pid message s
  { s1 with batchedMessages := s1.batchedMessages + 1 }

/-- `_handler`: in batch mode append and count, submitting only when the
counter reaches the batch size (resetting only the counter on success); in
single mode append, submit, and clear the event list on success. -/
def handler (cfg : Config) (put : Nat → Except String Response)
    (refresh : Nat → Option String) (ts : Int) (ipAddress : String) (pid : Nat)
    (message : String) (s : EngineState) :
    PyResult (Option Response) × EngineState × Trace :=
  if cfg.useBatches then
    let s2 := batchBoundaryState ts ipAddress pid message s
    if s2.batchedMessages = cfg.batchSize then
      match sendLogWithRetry cfg put refresh s2 with
      | (PyResult.ok r, s3, tr) => (PyResult.ok r, { s3 with batchedMessages := 0 }, tr)
      | (PyResult.raised e, s3, tr) => (PyResult.raised e, s3, tr)
    else
      (PyResult.ok none, s2, ⟨[], [], 0⟩)
  else
    let s1 := appendLogEvents ts ipAddress pid message s
    match sendLogWithRetry cfg put refresh s1 with
    | (PyResult.ok r, s2, tr) => (PyResult.ok r, { s2 with logEvents := [] }, tr)
    | (PyResult.raised e, s2, tr) => (PyResult.raised e, s2, tr)

/-- `flush`: when the batch counter is positive, submit and on success reset
the counter and the event list; otherwise no-op. -/
def flush (cfg : Config) (put : Nat → Except String Response)
    (refresh : Nat → Option String) (s : EngineState) :
    PyResult Unit × EngineState × Trace :=
  if s.batchedMessages > 0 then
    match sendLogWithRetry cfg put refresh s with
    | (PyResult.ok _, s1, tr) =>
      (PyResult.ok (), { s1 with batchedMessages := 0, logEvents := [] }, tr)
    | (PyResult.raised e, s1, tr) => (PyResult.raised e, s1, tr)
  else (PyResult.ok (), s, ⟨[], [], 0⟩)

/-- The `level_lookup` dict of `__should_record_log` (note the extra `WARN`
alias present in the source). -/
def levelLookup (name : String) : Option Nat :=
  if name = "CRITICAL" then some 50
  else if name = "ERROR" then some 40
  else if name = "WARNING" then some 30
  else if name = "WARN" then some 30
  else if name = "INFO" then some 20
  else if name = "DEBUG" then some 10
  else none

/-- Python's `str.upper` on the ASCII range (the only characters the level
names use), written over the character list so that it evaluates inside the
kernel. -/
def pyUpper (s : String) : String := ⟨s.data.map Char.toUpper⟩

/-- `__should_record_log`: the configured level is validated first (ValueError
when unknown); then the comparison looks the message level up (a KeyError in
Python when absent) and compares ranks with `>=`. -/
def shouldRecordLog (configuredLevel messageLevel : String) : Except String Bool :=
  match levelLookup (pyUpper configuredLevel) with
  | none => Except.error "Log level incorrect"
  | some configRank =>
    match levelLookup (pyUpper messageLevel) with
    | none => Except.error "KeyError"
    | some msgRank => Except.ok (decide (configRank ≤ msgRank))

/-- Severity rank table as the spec states it (CRITICAL=50, ERROR=40,
WARNING=30, INFO=20, DEBUG=10).  Modelled from the spec sentence defining
`shouldRecord`, used only to compare the source's decision against the spec's
rank comparison. -/
def specLevelRank (name : String) : Nat :=
  if name = "CRITICAL" then 50
  else if name = "ERROR" then 40
  else if name = "WARNING" then 30
  else if name = "INFO" then 20
  else if name = "DEBUG" then 10
  else 0

/-- The five level names recognized by the spec's `shouldRecord` contract. -/
def fiveLevelNames : List String := ["CRITICAL", "ERROR", "WARNING", "INFO", "DEBUG"]

/-- Remote API calls observable from `create_log_group`. -/
inductive ApiCall where
  | createLogGroupCall : String → ApiCall
  | putRetentionPolicyCall : String → Int → ApiCall
  | tagLogGroupCall : String → List (String × String) → ApiCall
deriving Repr, DecidableEq

/-- The allowed retention day values of `__add_retention`. -/
def allowedRetentionDays : List Int :=
  [1, 3, 5, 7, 14, 30, 90, 120, 150, 180, 365, 400, 545, 731, 1827, 3653]

/-- Exact message of the ValueError raised by `__add_retention` (the Python
f-string interpolates the allowed list; the interpolation is kept as a fixed
string here since no claim depends on its text). -/
def retentionErrMsg : String :=
  "Retention days for cloudwatch logs must be one of the allowed retention days"

/-- `__add_retention`: validate the day count before the remote
`put_retention_policy` call; the ValueError is raised with no network call. -/
def addRetention (group : String) (retentionDays : Int) : PyResult Unit × List ApiCall :=
  if retentionDays ∉ allowedRetentionDays then
    (PyResult.raised retentionErrMsg, [])
  else
    (PyResult.ok (), [ApiCall.putRetentionPolicyCall group retentionDays])

/-- `create_log_group`.  `createOutcome` is the remote create call's outcome
(`Except.error ()` is `ResourceAlreadyExistsException`, the only exception the
`except` clause catches); the remote retention and tag calls are modelled as
succeeding since no claim depends on their failure.  `tags` follows Python
truthiness: `none` and an empty mapping skip the tag call.  The returned list
records every remote call made, in order. -/
def createLogGroup (group : String) (createOutcome : Except Unit Unit)
    (retentionDays : Int) (tags : Option (List (String × String)))
    (raiseIfExists : Bool) : PyResult Unit × List ApiCall :=
  match createOutcome with
  | Except.ok () =>
    match addRetention group retentionDays with
    | (PyResult.raised e, rcalls) =>
      (PyResult.raised e, ApiCall.createLogGroupCall group :: rcalls)
    | (PyResult.ok (), rcalls) =>
      let tagCalls :=
        match tags with
        | some t => if t = [] then [] else [ApiCall.tagLogGroupCall group t]
        | none => []
      (PyResult.ok (), ApiCall.createLogGroupCall group :: (rcalls ++ tagCalls))
  | Except.error () =>
    if raiseIfExists then
      (PyResult.raised "Cloudwatch log group already exists",
       [ApiCall.createLogGroupCall group])
    else
      (PyResult.ok (), [ApiCall.createLogGroupCall group])

/-- The retry loop never touches the event buffer nor the batch counter: only
`sequenceToken` and `storedTokenField` change across a run. -/
theorem retryGo_preserves_buffer (cfg : Config) (put : Nat → Except String Response)
    (refresh : Nat → Option String) :
    ∀ (fuel attempt : Nat) (s : EngineState),
      ((sendLogRetryGo cfg put refresh fuel attempt s).2.1).logEvents = s.logEvents ∧
      ((sendLogRetryGo cfg put refresh fuel attempt s).2.1).batchedMessages = s.batchedMessages := by
  intro fuel
  induction fuel with
  | zero => intro attempt s; simp [sendLogRetryGo]
  | succ f ih =>
    intro attempt s
    simp only [sendLogRetryGo]
    split
    · cases hp : put (attempt + 1) with
      | ok response =>
        by_cases hv : requestIsValid response
        · simp [hp, hv, sendLogRequest]
        · simpa [hp, hv, sendLogRequest] using ih (attempt + 1) _
      | error exc =>
        by_cases hgt : attempt + 1 > cfg.maxAttempts
        · simp [hp, hgt, sendLogRequest]
        · have h2 := ih (attempt + 1)
            (refreshSequenceToken (refresh (attempt + 1)) (sendLogRequest cfg s).2)
          simpa [hp, hgt, sendLogRequest, refreshSequenceToken] using
            (by cases htok : refresh (attempt + 1) <;>
                  simpa [sendLogRequest, refreshSequenceToken, htok] using h2)
    · simp

/-- Whenever the loop body runs at least once, the first `put_log_events`
request of the run is exactly the request `__send_log` builds from the entry
state. -/
theorem retryGo_first_put (cfg : Config) (put : Nat → Except String Response)
    (refresh : Nat → Option String) (fuel attempt : Nat) (s : EngineState)
    (h : attempt ≤ cfg.maxAttempts) :
    ((sendLogRetryGo cfg put refresh (fuel + 1) attempt s).2.2).puts.head? =
      some ((sendLogRequest cfg s).1) := by
  simp only [sendLogRetryGo, if_pos h]
  cases hp : put (attempt + 1) with
  | ok response =>
    by_cases hv : requestIsValid response
    · simp [hv]
    · simp [hv]
  | error exc =>
    by_cases hgt : attempt + 1 > cfg.maxAttempts
    · simp [hgt]
    · simp [hgt]

/-- When the retry loop returns a response, the held sequence token has been
set to the token of that response. -/
theorem retryGo_token_adopted (cfg : Config) (put : Nat → Except String Response)
    (refresh : Nat → Option String) :
    ∀ (fuel attempt : Nat) (s : EngineState) (r : Response),
      (sendLogRetryGo cfg put refresh fuel attempt s).1 = PyResult.ok (some r) →
      ((sendLogRetryGo cfg put refresh fuel attempt s).2.1).sequenceToken =
        r.nextSequenceToken := by
  intro fuel
  induction fuel with
  | zero => intro attempt s r h; simp [sendLogRetryGo] at h
  | succ f ih =>
    intro attempt s r h
    by_cases hle : attempt ≤ cfg.maxAttempts
    · simp only [sendLogRetryGo, if_pos hle] at h ⊢
      cases hp : put (attempt + 1) with
      | ok response =>
        rw [hp] at h
        by_cases hv : requestIsValid response
        · simp only [hv, if_true] at h ⊢
          have hr : response = r := by simpa using h
          simp [hr]
        · simp only [hv, if_false] at h ⊢
          exact ih (attempt + 1) _ r h
      | error exc =>
        rw [hp] at h
        by_cases hgt : attempt + 1 > cfg.maxAttempts
        · simp [hgt] at h
        · simp only [hgt, if_false] at h ⊢
          exact ih (attempt + 1) _ r h
    · simp only [sendLogRetryGo, if_neg hle] at h
      simp at h

/-- When every attempt raises, a run entered with the exact remaining budget
raises a terminal error and performs one `put_log_events` call per unit of
budget. -/
theorem retryGo_all_fail (cfg : Config) (put : Nat → Except String Response)
    (refresh : Nat → Option String) (hfail : ∀ n, ∃ m, put n = Except.error m) :
    ∀ (fuel attempt : Nat) (s : EngineState), 1 ≤ fuel →
      attempt + fuel = cfg.maxAttempts + 1 →
      (∃ m, (sendLogRetryGo cfg put refresh fuel attempt s).1 = PyResult.raised m) ∧
      ((sendLogRetryGo cfg put refresh fuel attempt s).2.2).puts.length = fuel := by
  intro fuel
  induction fuel with
  | zero => intro attempt s h1 _; omega
  | succ f ih =>
    intro attempt s _ hsum
    have hle : attempt ≤ cfg.maxAttempts := by omega
    obtain ⟨m, hm⟩ := hfail (attempt + 1)
    simp only [sendLogRetryGo, if_pos hle, hm]
    by_cases hgt : attempt + 1 > cfg.maxAttempts
    · have hf0 : f = 0 := by omega
      subst hf0
      simp [hgt]
    · have hf1 : 1 ≤ f := by omega
      have h2 := ih (attempt + 1)
        (refreshSequenceToken (refresh (attempt + 1)) (sendLogRequest cfg s).2)
        hf1 (by omega)
      simp only [hgt, if_false]
      refine ⟨h2.1, ?_⟩
      simp [h2.2]

/-- Every run of the retry loop ends in one of three ways: a validated
response, a raised terminal error, or Python's implicit `return None`. -/
theorem retryGo_trichotomy (cfg : Config) (put : Nat → Except String Response)
    (refresh : Nat → Option String) :
    ∀ (fuel attempt : Nat) (s : EngineState),
      (∃ r, (sendLogRetryGo cfg put refresh fuel attempt s).1 = PyResult.ok (some r) ∧
        requestIsValid r = true) ∨
      (∃ m, (sendLogRetryGo cfg put refresh fuel attempt s).1 = PyResult.raised m) ∨
      (sendLogRetryGo cfg put refresh fuel attempt s).1 = PyResult.ok none := by
  intro fuel
  induction fuel with
  | zero => intro attempt s; right; right; simp [sendLogRetryGo]
  | succ f ih =>
    intro attempt s
    simp only [sendLogRetryGo]
    split
    · cases hp : put (attempt + 1) with
      | ok response =>
        by_cases hv : requestIsValid response
        · left; exact ⟨response, by simp [hv], hv⟩
        · simpa [hv] using ih (attempt + 1) (sendLogRequest cfg s).2
      | error exc =>
        by_cases hgt : attempt + 1 > cfg.maxAttempts
        · right; left; exact ⟨"Max attempts reached - " ++ exc, by simp [hgt]⟩
        · simpa [hgt] using ih (attempt + 1)
            (refreshSequenceToken (refresh (attempt + 1)) (sendLogRequest cfg s).2)
    · right; right; rfl

/-- A put oracle whose every attempt raises (for instance an
InvalidSequenceTokenException on every call). -/
def putAlwaysFails : Nat → Except String Response := fun _ => Except.error "boom"

/-- A put oracle whose every attempt succeeds with a validated response. -/
def putAlwaysOk : Nat → Except String Response := fun _ => Except.ok ⟨200, some "tok-1"⟩

/-- A put oracle whose every attempt returns a well-formed but invalid
response (HTTP 500, token present). -/
def putAlwaysInvalid : Nat → Except String Response := fun _ => Except.ok ⟨500, some "tok-1"⟩

/-- A refresh oracle for a stream that has no `uploadSequenceToken` yet. -/
def refreshFindsNothing : Nat → Option String := fun _ => none

/-- A configuration with `max_attempts = 2`, batching off. -/
def cfgTwoAttempts : Config := ⟨"G", "S", "INFO", false, 25, 2, 10⟩

/-- C1 counterexample: with `max_attempts = 2` and every attempt raising, the
engine raises the terminal error only after performing three submission
attempts, not two as the claim states. -/
theorem C1_counterexample :
    (sendLogWithRetry cfgTwoAttempts putAlwaysFails refreshFindsNothing initState).1 =
      PyResult.raised "Max attempts reached - boom" ∧
    ((sendLogWithRetry cfgTwoAttempts putAlwaysFails refreshFindsNothing initState).2.2).puts.length
      = 3 := by
  decide

/-- C1 amended: with `max_attempts = 2` and every submission attempt raising,
`__send_log_with_retry` raises a terminal error and performs exactly
`max_attempts + 1 = 3` submission attempts (the loop runs while
`attempt <= max_attempts` and increments first, giving one extra attempt). -/
theorem C1_retry_exhaustion_three_attempts (cfg : Config)
    (put : Nat → Except String Response) (refresh : Nat → Option String)
    (s : EngineState) (hmax : cfg.maxAttempts = 2)
    (hfail : ∀ n, ∃ m, put n = Except.error m) :
    (∃ m, (sendLogWithRetry cfg put refresh s).1 = PyResult.raised m) ∧
    ((sendLogWithRetry cfg put refresh s).2.2).puts.length = 3 := by
  have h := retryGo_all_fail cfg put refresh hfail (cfg.maxAttempts + 1) 0 s
    (by omega) (by omega)
  simp only [sendLogWithRetry]
  exact ⟨h.1, by rw [h.2, hmax]⟩

/-- C1 witness: the amended theorem at a concrete failing oracle. -/
theorem C1_retry_exhaustion_three_attempts_witness :
    (∃ m, (sendLogWithRetry cfgTwoAttempts putAlwaysFails refreshFindsNothing initState).1 =
      PyResult.raised m) ∧
    ((sendLogWithRetry cfgTwoAttempts putAlwaysFails refreshFindsNothing
        initState).2.2).puts.length = 3 :=
  C1_retry_exhaustion_three_attempts cfgTwoAttempts putAlwaysFails refreshFindsNothing
    initState rfl (fun _ => ⟨"boom", rfl⟩)

/-- C3 counterexample: when every attempt yields a well-formed but invalid
response, the retry loop exhausts its budget and terminates returning Python's
`None` — neither a validated response nor an exception, refuting the claim
that every invocation returns a result or raises. -/
theorem C3_counterexample :
    (sendLogWithRetry cfgTwoAttempts putAlwaysInvalid refreshFindsNothing initState).1 =
      PyResult.ok none ∧
    ((sendLogWithRetry cfgTwoAttempts putAlwaysInvalid refreshFindsNothing
        initState).2.2).puts.length = 3 := by
  decide

/-- C3 amended: every invocation of `__send_log_with_retry` either returns a
validated response, or raises a terminal error, or falls off the loop
returning `None` (the last case arises when the budget is exhausted by
well-formed but invalid responses). -/
theorem C3_submit_outcome_trichotomy (cfg : Config)
    (put : Nat → Except String Response) (refresh : Nat → Option String)
    (s : EngineState) :
    (∃ r, (sendLogWithRetry cfg put refresh s).1 = PyResult.ok (some r) ∧
      requestIsValid r = true) ∨
    (∃ m, (sendLogWithRetry cfg put refresh s).1 = PyResult.raised m) ∨
    (sendLogWithRetry cfg put refresh s).1 = PyResult.ok none :=
  retryGo_trichotomy cfg put refresh (cfg.maxAttempts + 1) 0 s

/-- C7: from the freshly initialised state (no token ever held, no
`sequenceToken` key in the event dict) the first submission request of any run
omits the sequence-token field entirely. -/
theorem C7_first_submission_omits_token (cfg : Config)
    (put : Nat → Except String Response) (refresh : Nat → Option String) :
    ((sendLogWithRetry cfg put refresh initState).2.2).puts.head? =
      some ((sendLogRequest cfg initState).1) ∧
    ((sendLogRequest cfg initState).1).sequenceToken = none := by
  refine ⟨?_, rfl⟩
  exact retryGo_first_put cfg put refresh cfg.maxAttempts 0 initState (Nat.zero_le _)

/-- C9: when an attempt returns a well-formed response that fails validation,
the iteration adds no sleep and no refresh call, leaves the held sequence
token unchanged, and proceeds immediately to the next attempt. -/
theorem C9_invalid_response_loops_without_backoff (cfg : Config)
    (put : Nat → Except String Response) (refresh : Nat → Option String)
    (fuel attempt : Nat) (s : EngineState) (r : Response)
    (hle : attempt ≤ cfg.maxAttempts) (hput : put (attempt + 1) = Except.ok r)
    (hinv : requestIsValid r = false) :
    sendLogRetryGo cfg put refresh (fuel + 1) attempt s =
      ((sendLogRetryGo cfg put refresh fuel (attempt + 1) (sendLogRequest cfg s).2).1,
       (sendLogRetryGo cfg put refresh fuel (attempt + 1) (sendLogRequest cfg s).2).2.1,
       ⟨(sendLogRequest cfg s).1 ::
          (sendLogRetryGo cfg put refresh fuel (attempt + 1)
            (sendLogRequest cfg s).2).2.2.puts,
        (sendLogRetryGo cfg put refresh fuel (attempt + 1)
          (sendLogRequest cfg s).2).2.2.sleeps,
        (sendLogRetryGo cfg put refresh fuel (attempt + 1)
          (sendLogRequest cfg s).2).2.2.refreshes⟩) ∧
    ((sendLogRequest cfg s).2).sequenceToken = s.sequenceToken := by
  refine ⟨?_, rfl⟩
  simp [sendLogRetryGo, if_pos hle, hput, hinv]

/-- C9 witness: the theorem at a concrete invalid-response oracle. -/
theorem C9_invalid_response_loops_without_backoff_witness :
    sendLogRetryGo cfgTwoAttempts putAlwaysInvalid refreshFindsNothing 2 0 initState =
      ((sendLogRetryGo cfgTwoAttempts putAlwaysInvalid refreshFindsNothing 1 1
          (sendLogRequest cfgTwoAttempts initState).2).1,
       (sendLogRetryGo cfgTwoAttempts putAlwaysInvalid refreshFindsNothing 1 1
          (sendLogRequest cfgTwoAttempts initState).2).2.1,
       ⟨(sendLogRequest cfgTwoAttempts initState).1 ::
          (sendLogRetryGo cfgTwoAttempts putAlwaysInvalid refreshFindsNothing 1 1
            (sendLogRequest cfgTwoAttempts initState).2).2.2.puts,
        (sendLogRetryGo cfgTwoAttempts putAlwaysInvalid refreshFindsNothing 1 1
          (sendLogRequest cfgTwoAttempts initState).2).2.2.sleeps,
        (sendLogRetryGo cfgTwoAttempts putAlwaysInvalid refreshFindsNothing 1 1
          (sendLogRequest cfgTwoAttempts initState).2).2.2.refreshes⟩) ∧
    ((sendLogRequest cfgTwoAttempts initState).2).sequenceToken =
      initState.sequenceToken :=
  C9_invalid_response_loops_without_backoff cfgTwoAttempts putAlwaysInvalid
    refreshFindsNothing 1 0 initState ⟨500, some "tok-1"⟩ (by decide) rfl (by decide)

/-- C5: across the five recognized level names, case-insensitively, the
should-record decision of the source returns true exactly when the message
level's spec rank is at least the configured level's spec rank. -/
theorem C5_should_record_iff_rank (configuredLevel messageLevel : String)
    (hc : pyUpper configuredLevel ∈ fiveLevelNames)
    (hm : pyUpper messageLevel ∈ fiveLevelNames) :
    (shouldRecordLog configuredLevel messageLevel = Except.ok true) ↔
      specLevelRank (pyUpper configuredLevel) ≤ specLevelRank (pyUpper messageLevel) := by
  simp only [fiveLevelNames, List.mem_cons, List.mem_singleton, List.not_mem_nil,
    or_false] at hc hm
  rcases hc with hc | hc | hc | hc | hc <;> rcases hm with hm | hm | hm | hm | hm <;>
    simp [shouldRecordLog, levelLookup, specLevelRank, hc, hm]

/-- C5 witness: the theorem at a concrete mixed-case pair of levels. -/
theorem C5_should_record_iff_rank_witness :
    (shouldRecordLog "info" "Error" = Except.ok true) ↔
      specLevelRank (pyUpper "info") ≤ specLevelRank (pyUpper "Error") :=
  C5_should_record_iff_rank "info" "Error" (by decide) (by decide)

/-- A put oracle that succeeds with a validated response whose
`nextSequenceToken` is the empty string. -/
def putEmptyToken : Nat → Except String Response := fun _ => Except.ok ⟨200, some ""⟩

/-- When `flush` actually submits, its observable remote calls are exactly
those of the retry run it performs. -/
theorem flush_trace (cfg : Config) (put : Nat → Except String Response)
    (refresh : Nat → Option String) (s : EngineState) (hpos : 0 < s.batchedMessages) :
    (flush cfg put refresh s).2.2 = (sendLogWithRetry cfg put refresh s).2.2 := by
  simp only [flush, if_pos hpos]
  rcases hx : sendLogWithRetry cfg put refresh s with ⟨res, s1, tr⟩
  cases res <;> simp

/-- C6 amended: after a successful validated submission whose response carries
`nextSequenceToken = T`, the engine holds `T`, and the next submission attaches
`sequenceToken = T` provided `T` is non-empty (Python truthiness: an
empty-string token is falsy and is not attached). -/
theorem C6_token_adoption_nonempty (cfg : Config)
    (put : Nat → Except String Response) (refresh : Nat → Option String)
    (s : EngineState) (r : Response) (T : String)
    (h : (sendLogWithRetry cfg put refresh s).1 = PyResult.ok (some r))
    (hT : r.nextSequenceToken = some T) (hne : T ≠ "") :
    ((sendLogWithRetry cfg put refresh s).2.1).sequenceToken = some T ∧
    ((sendLogRequest cfg ((sendLogWithRetry cfg put refresh s).2.1)).1).sequenceToken =
      some T := by
  have htok : ((sendLogWithRetry cfg put refresh s).2.1).sequenceToken =
      r.nextSequenceToken :=
    retryGo_token_adopted cfg put refresh (cfg.maxAttempts + 1) 0 s r h
  rw [hT] at htok
  refine ⟨htok, ?_⟩
  simp [sendLogRequest, pyTruthy, htok, bne_iff_ne, hne]

/-- C6 witness: the amended theorem at a concrete successful oracle. -/
theorem C6_token_adoption_nonempty_witness :
    ((sendLogWithRetry cfgTwoAttempts putAlwaysOk refreshFindsNothing
        initState).2.1).sequenceToken = some "tok-1" ∧
    ((sendLogRequest cfgTwoAttempts ((sendLogWithRetry cfgTwoAttempts putAlwaysOk
        refreshFindsNothing initState).2.1)).1).sequenceToken = some "tok-1" :=
  C6_token_adoption_nonempty cfgTwoAttempts putAlwaysOk refreshFindsNothing initState
    ⟨200, some "tok-1"⟩ "tok-1" (by decide) rfl (by decide)

/-- C6 counterexample: a successful validated submission whose
`nextSequenceToken` is the empty string is adopted as the held token, yet the
next submission omits the token field instead of attaching it, because the
Python truthiness test on the held token rejects the empty string. -/
theorem C6_counterexample :
    (sendLogWithRetry cfgTwoAttempts putEmptyToken refreshFindsNothing initState).1 =
      PyResult.ok (some ⟨200, some ""⟩) ∧
    ((sendLogWithRetry cfgTwoAttempts putEmptyToken refreshFindsNothing
        initState).2.1).sequenceToken = some "" ∧
    ((sendLogRequest cfgTwoAttempts ((sendLogWithRetry cfgTwoAttempts putEmptyToken
        refreshFindsNothing initState).2.1)).1).sequenceToken = none := by
  decide

/-- A batching configuration with batch size 2. -/
def cfgBatchTwo : Config := ⟨"G", "S", "INFO", true, 2, 10, 10⟩

/-- The first of two successful batched record calls. -/
def c2run1 : PyResult (Option Response) × EngineState × Trace :=
  handler cfgBatchTwo putAlwaysOk refreshFindsNothing 0 "10.0.0.1" 7 "m1" initState

/-- The second of two successful batched record calls, which reaches the batch
boundary and submits. -/
def c2run2 : PyResult (Option Response) × EngineState × Trace :=
  handler cfgBatchTwo putAlwaysOk refreshFindsNothing 1 "10.0.0.1" 7 "m2" c2run1.2.1

/-- C2: with batch size 2 and no failures, the first record call submits
nothing and the second submits exactly once — but after the successful
submission the event buffer still holds both events, since `_handler` resets
only the counter, contradicting its own docstring which says the base event
log is reset on success. -/
theorem C2_batch_success_keeps_events_in_buffer :
    c2run1.2.2.puts.length = 0 ∧
    c2run2.2.2.puts.length = 1 ∧
    c2run2.2.1.batchedMessages = 0 ∧
    c2run2.2.1.logEvents.length = 2 := by
  decide

/-- C4 amended: when a batch-boundary submission exhausts its retries, the
terminal error propagates through `_handler` and the affected events stay in
the local buffer — the counter is not reset and the event list is untouched —
and a subsequent `flush` resubmits exactly those buffered events. -/
theorem C4_events_retained_and_resubmitted (cfg : Config)
    (put put2 : Nat → Except String Response) (refresh refresh2 : Nat → Option String)
    (ts : Int) (ipAddress : String) (pid : Nat) (message : String) (s : EngineState)
    (e : String)
    (hb : cfg.useBatches = true)
    (hsize : s.batchedMessages + 1 = cfg.batchSize)
    (hraise : (sendLogWithRetry cfg put refresh
        (batchBoundaryState ts ipAddress pid message s)).1 = PyResult.raised e) :
    (handler cfg put refresh ts ipAddress pid message s).1 = PyResult.raised e ∧
    (handler cfg put refresh ts ipAddress pid message s).2.1 =
      (sendLogWithRetry cfg put refresh
        (batchBoundaryState ts ipAddress pid message s)).2.1 ∧
    ((handler cfg put refresh ts ipAddress pid message s).2.1).logEvents =
      (appendLogEvents ts ipAddress pid message s).logEvents ∧
    ((handler cfg put refresh ts ipAddress pid message s).2.1).batchedMessages =
      s.batchedMessages + 1 ∧
    ((flush cfg put2 refresh2 ((handler cfg put refresh ts ipAddress pid
        message s).2.1)).2.2).puts.head? =
      some ((sendLogRequest cfg ((handler cfg put refresh ts ipAddress pid
        message s).2.1)).1) ∧
    ((sendLogRequest cfg ((handler cfg put refresh ts ipAddress pid
        message s).2.1)).1).logEvents =
      ((handler cfg put refresh ts ipAddress pid message s).2.1).logEvents := by
  have hpres := retryGo_preserves_buffer cfg put refresh (cfg.maxAttempts + 1) 0
    (batchBoundaryState ts ipAddress pid message s)
  have hcond : (batchBoundaryState ts ipAddress pid message s).batchedMessages =
      cfg.batchSize := by
    simpa [batchBoundaryState, appendLogEvents] using hsize
  have hhandler : handler cfg put refresh ts ipAddress pid message s =
      (PyResult.raised e,
       (sendLogWithRetry cfg put refresh
         (batchBoundaryState ts ipAddress pid message s)).2.1,
       (sendLogWithRetry cfg put refresh
         (batchBoundaryState ts ipAddress pid message s)).2.2) := by
    rcases hx : sendLogWithRetry cfg put refresh
      (batchBoundaryState ts ipAddress pid message s) with ⟨res, s3, tr⟩
    rw [hx] at hraise
    cases res with
    | ok v => simp at hraise
    | raised m =>
      have hme : m = e := by simpa using hraise
      subst hme
      simp [handler, hb, hcond, hx]
  have hstate : (handler cfg put refresh ts ipAddress pid message s).2.1 =
      (sendLogWithRetry cfg put refresh
        (batchBoundaryState ts ipAddress pid message s)).2.1 := by
    rw [hhandler]
  have hbuf : ((sendLogWithRetry cfg put refresh
      (batchBoundaryState ts ipAddress pid message s)).2.1).logEvents =
      (appendLogEvents ts ipAddress pid message s).logEvents := hpres.1
  have hcount : ((sendLogWithRetry cfg put refresh
      (batchBoundaryState ts ipAddress pid message s)).2.1).batchedMessages =
      s.batchedMessages + 1 := hpres.2
  have hpos : 0 < ((handler cfg put refresh ts ipAddress pid
      message s).2.1).batchedMessages := by
    rw [hstate, hcount]; omega
  refine ⟨by rw [hhandler], hstate, by rw [hstate, hbuf], by rw [hstate, hcount], ?_, rfl⟩
  rw [flush_trace cfg put2 refresh2 _ hpos]
  exact retryGo_first_put cfg put2 refresh2 cfg.maxAttempts 0 _ (Nat.zero_le _)

/-- A batching configuration with batch size 1 and `max_attempts = 0`. -/
def cfgBatchOneNoRetry : Config := ⟨"G", "S", "INFO", true, 1, 0, 10⟩

/-- A record call whose batch-boundary submission exhausts its retries. -/
def c4run1 : PyResult (Option Response) × EngineState × Trace :=
  handler cfgBatchOneNoRetry putAlwaysFails refreshFindsNothing 0 "10.0.0.1" 7 "m1"
    initState

/-- A flush after the failed record call, against a now-healthy remote. -/
def c4flush : PyResult Unit × EngineState × Trace :=
  flush cfgBatchOneNoRetry putAlwaysOk refreshFindsNothing c4run1.2.1

/-- C4 counterexample: after the terminal error propagates out of the record
call, the event is still in the local buffer (counter 1, one buffered event),
and a later `flush` resubmits exactly that event — refuting the claim that the
affected events are dropped and never resubmitted. -/
theorem C4_counterexample :
    c4run1.1 = PyResult.raised "Max attempts reached - boom" ∧
    c4run1.2.1.batchedMessages = 1 ∧
    c4run1.2.1.logEvents.length = 1 ∧
    c4flush.2.2.puts.length = 1 ∧
    (c4flush.2.2.puts.head?.map fun q => q.logEvents) = some c4run1.2.1.logEvents := by
  decide

/-- C4 witness: the amended theorem at the concrete failing record call. -/
theorem C4_events_retained_and_resubmitted_witness :
    (handler cfgBatchOneNoRetry putAlwaysFails refreshFindsNothing 0 "10.0.0.1" 7 "m1"
      initState).1 = PyResult.raised "Max attempts reached - boom" ∧
    (handler cfgBatchOneNoRetry putAlwaysFails refreshFindsNothing 0 "10.0.0.1" 7 "m1"
      initState).2.1 =
      (sendLogWithRetry cfgBatchOneNoRetry putAlwaysFails refreshFindsNothing
        (batchBoundaryState 0 "10.0.0.1" 7 "m1" initState)).2.1 ∧
    ((handler cfgBatchOneNoRetry putAlwaysFails refreshFindsNothing 0 "10.0.0.1" 7 "m1"
      initState).2.1).logEvents =
      (appendLogEvents 0 "10.0.0.1" 7 "m1" initState).logEvents ∧
    ((handler cfgBatchOneNoRetry putAlwaysFails refreshFindsNothing 0 "10.0.0.1" 7 "m1"
      initState).2.1).batchedMessages = initState.batchedMessages + 1 ∧
    ((flush cfgBatchOneNoRetry putAlwaysOk refreshFindsNothing
        ((handler cfgBatchOneNoRetry putAlwaysFails refreshFindsNothing 0 "10.0.0.1" 7
          "m1" initState).2.1)).2.2).puts.head? =
      some ((sendLogRequest cfgBatchOneNoRetry ((handler cfgBatchOneNoRetry
        putAlwaysFails refreshFindsNothing 0 "10.0.0.1" 7 "m1" initState).2.1)).1) ∧
    ((sendLogRequest cfgBatchOneNoRetry ((handler cfgBatchOneNoRetry putAlwaysFails
        refreshFindsNothing 0 "10.0.0.1" 7 "m1" initState).2.1)).1).logEvents =
      ((handler cfgBatchOneNoRetry putAlwaysFails refreshFindsNothing 0 "10.0.0.1" 7
        "m1" initState).2.1).logEvents :=
  C4_events_retained_and_resubmitted cfgBatchOneNoRetry putAlwaysFails putAlwaysOk
    refreshFindsNothing refreshFindsNothing 0 "10.0.0.1" 7 "m1" initState
    "Max attempts reached - boom" rfl rfl (by decide)

/-- C8 counterexample: `create_log_group` with `retention_days = 4` raises the
configuration error, but only after the remote create-log-group network call
has already been made — refuting the claim that no network call occurs. -/
theorem C8_counterexample :
    (createLogGroup "G" (Except.ok ()) 4 none true).2 =
      [ApiCall.createLogGroupCall "G"] ∧
    (createLogGroup "G" (Except.ok ()) 4 none true).1 =
      PyResult.raised retentionErrMsg := by
  decide

/-- C8 amended: with a retention value outside the allowed set and a remote
create call that succeeds, `create_log_group` raises the configuration error
after performing exactly the create-log-group network call — no retention and
no tag call is made, but the create call itself precedes the validation. -/
theorem C8_retention_validation_after_create (group : String)
    (tags : Option (List (String × String))) (raiseIfExists : Bool) (d : Int)
    (hd : d ∉ allowedRetentionDays) :
    createLogGroup group (Except.ok ()) d tags raiseIfExists =
      (PyResult.raised retentionErrMsg, [ApiCall.createLogGroupCall group]) := by
  simp [createLogGroup, addRetention, hd]

/-- C8 witness: the amended theorem at `retention_days = 4`. -/
theorem C8_retention_validation_after_create_witness :
    createLogGroup "G" (Except.ok ()) 4 none true =
      (PyResult.raised retentionErrMsg, [ApiCall.createLogGroupCall "G"]) :=
  C8_retention_validation_after_create "G" none true 4 (by decide)

/-- C10: when the remote create call fails with
`ResourceAlreadyExistsException` and `raise_if_exists` is false, the method
returns normally having made only the create-log-group call: no retention and
no tag call happens for a pre-existing group. -/
theorem C10_existing_group_skips_retention_and_tags (group : String) (d : Int)
    (tags : Option (List (String × String))) :
    createLogGroup group (Except.error ()) d tags false =
      (PyResult.ok (), [ApiCall.createLogGroupCall group]) :=
  rfl

end SharedLib
